import Mathlib

/-!
Verification of `pyre_extensions/__init__.py`.

The module defines three runtime functions:
  * `none_throws(optional)` — returns its argument unless it is the `None`
    object, in which case it raises an `AssertionError` with message
    "Unexpected `None`";
  * `ParameterSpecification(name)` — ignores `name` and returns `[]`;
  * `ListVariadic(name)` — ignores `name` and returns `typing.Any`.

Python optionals are untagged: `Optional[T]` at runtime is either the
distinguished `None` object (absent) or a value of `T` itself (present).
We embed Python runtime values as an inductive type `PyObject` with `none`
as the distinguished absence marker, and raised exceptions as the `error`
side of `Except`.
-/

/-- A Python runtime value, as far as this module can observe one:
the `None` object, booleans, integers, strings, lists, and the
`typing.Any` object returned by `ListVariadic`. -/
inductive PyObject where
  | none : PyObject
  | bool : Bool → PyObject
  | int : Int → PyObject
  | str : String → PyObject
  | list : List PyObject → PyObject
  | anyMarker : PyObject

/-- The Python exception hierarchy, restricted to the classes a caller of
this module could care to distinguish: the built-in `AssertionError`
actually raised by the code, a hypothetical dedicated `UnexpectedAbsence`
class (which the code does not define), and `TypeError` as a stand-in for
any other built-in. -/
inductive PyErrorKind where
  | assertionError : PyErrorKind
  | unexpectedAbsence : PyErrorKind
  | typeError : PyErrorKind
deriving DecidableEq

/-- A raised Python exception: its class and its message. -/
structure PyError where
  kind : PyErrorKind
  msg : String
deriving DecidableEq

/-- Python truthiness (`bool(v)`): `None`, `False`, `0`, `""` and `[]`
are falsy; everything else here is truthy. Used only to state that the
check in `none_throws` is not truthiness-based. -/
def truthy : PyObject → Bool
  | PyObject.none => false
  | PyObject.bool b => b
  | PyObject.int n => n != 0
  | PyObject.str s => s != ""
  | PyObject.list xs => !xs.isEmpty
  | PyObject.anyMarker => true

/-- The distinguished absence marker of a Python optional: the `None`
object. -/
def absent : PyObject := PyObject.none

/-- A present optional value in Python is the inner value itself:
`Optional[T]` is an untagged union, so `present` is the identity
injection of a `T` value into `Optional[T]`. -/
def present (v : PyObject) : PyObject := v

/-- `none_throws` from `pyre_extensions/__init__.py`:

    def none_throws(optional):
        if optional is None:
            raise AssertionError("Unexpected `None`")
        return optional

`optional is None` is an identity comparison against the unique `None`
object, embedded as matching the `PyObject.none` constructor; `raise` is
the `Except.error` side. -/
def none_throws : PyObject → Except PyError PyObject
  | PyObject.none =>
      Except.error { kind := PyErrorKind.assertionError, msg := "Unexpected `None`" }
  | v => Except.ok v

/-- `ParameterSpecification` from `pyre_extensions/__init__.py`: returns
the empty list, whatever the `name` argument is. -/
def ParameterSpecification (_name : String) : PyObject := PyObject.list []

/-- `ListVariadic` from `pyre_extensions/__init__.py`: returns the
`typing.Any` object, whatever the `name` argument is. -/
def ListVariadic (_name : String) : PyObject := PyObject.anyMarker

/-- Helper: on any value other than `None`, `none_throws` returns the
value unchanged. -/
theorem none_throws_eq_ok (v : PyObject) (h : v ≠ PyObject.none) :
    none_throws v = Except.ok v := by
  cases v <;> first | exact absurd rfl h | rfl

/-- Helper: on `None`, `none_throws` raises exactly the
`AssertionError` with message "Unexpected `None`". -/
theorem none_throws_none_eq :
    none_throws PyObject.none =
      Except.error { kind := PyErrorKind.assertionError, msg := "Unexpected `None`" } :=
  rfl

/-- C1: for every present value `v` (a value other than the `None`
absence marker), `none_throws (present v)` returns the contained value
`v` itself, unchanged. -/
theorem none_throws_present_identity (v : PyObject) (h : present v ≠ absent) :
    none_throws (present v) = Except.ok v :=
  none_throws_eq_ok v h

/-- Witness for C1 at the concrete present value `42`. -/
theorem none_throws_present_identity_app :
    none_throws (present (PyObject.int 42)) = Except.ok (PyObject.int 42) :=
  none_throws_present_identity (PyObject.int 42) (fun h => nomatch h)

/-- C2: `none_throws` raises if and only if its input is the absent
value, and the only error kind it ever raises is `AssertionError`. -/
theorem none_throws_raises_iff_absent (v : PyObject) :
    ((∃ e, none_throws v = Except.error e) ↔ v = absent) ∧
    (∀ e, none_throws v = Except.error e → e.kind = PyErrorKind.assertionError) := by
  by_cases hv : v = PyObject.none
  · subst hv
    refine ⟨⟨fun _ => rfl, fun _ => ⟨_, none_throws_none_eq⟩⟩, fun e he => ?_⟩
    rw [none_throws_none_eq] at he
    injection he with h
    rw [← h]
  · have hok := none_throws_eq_ok v hv
    refine ⟨⟨fun he => ?_, fun h => absurd h hv⟩, fun e he => ?_⟩
    · obtain ⟨e, he⟩ := he
      rw [hok] at he
      exact Except.noConfusion he
    · rw [hok] at he
      exact Except.noConfusion he

/-- Witness for C2: at the absent input the error exists and is an
`AssertionError`; at the present input `5` no error exists. -/
theorem none_throws_raises_iff_absent_app :
    (∃ e, none_throws absent = Except.error e) ∧
    (∀ e, none_throws absent = Except.error e → e.kind = PyErrorKind.assertionError) ∧
    ¬ (∃ e, none_throws (PyObject.int 5) = Except.error e) :=
  ⟨(none_throws_raises_iff_absent absent).1.2 rfl,
   (none_throws_raises_iff_absent absent).2,
   fun hex =>
     nomatch (none_throws_raises_iff_absent (PyObject.int 5)).1.1 hex⟩

/-- C3: on the absent input, `none_throws` fails with an error carrying
the fixed descriptive message "Unexpected `None`", the code's rendering
of "Unexpected absent value." -/
theorem none_throws_absent_message :
    none_throws absent =
      Except.error { kind := PyErrorKind.assertionError, msg := "Unexpected `None`" } :=
  rfl

/-- C4: the presence check is an identity comparison against the `None`
marker, never a truthiness check: every falsy-but-present value is
returned unchanged. -/
theorem none_throws_not_truthiness (v : PyObject)
    (hfalsy : truthy v = false) (hpresent : v ≠ absent) :
    none_throws v = Except.ok v :=
  none_throws_eq_ok v hpresent

/-- Witness for C4 at the falsy-but-present empty string: the check is
not truthiness-based, so `present ""` still succeeds and yields `""`. -/
theorem none_throws_not_truthiness_app :
    truthy (PyObject.str "") = false ∧
    none_throws (PyObject.str "") = Except.ok (PyObject.str "") :=
  ⟨rfl, none_throws_not_truthiness (PyObject.str "") rfl (fun h => nomatch h)⟩

/-- C5 counterexample: the claim says the output on `present (present 7)`
is `present 7`, *not* `7` — but in the code a present optional is the
inner value itself, so `present 7` is the very object `7` and the output
equals the bare `7` as well. -/
theorem none_throws_nested_counterexample :
    none_throws (present (present (PyObject.int 7))) = Except.ok (PyObject.int 7) ∧
    present (PyObject.int 7) = PyObject.int 7 :=
  ⟨rfl, rfl⟩

/-- C5 amended: applied to `present (present 7)`, `none_throws` returns
`present 7`; since Python optionals are untagged, `present 7` and `7` are
the same runtime value, so no distinct second layer can be observed. -/
theorem none_throws_nested :
    none_throws (present (present (PyObject.int 7))) =
      Except.ok (present (PyObject.int 7)) :=
  rfl

/-- C6: `none_throws` is pure and deterministic: equal inputs give equal
outcomes, and two calls on the same present value both yield that value. -/
theorem none_throws_deterministic (v w : PyObject) (hvw : v = w) :
    none_throws v = none_throws w ∧
    (v ≠ absent → none_throws v = Except.ok v ∧ none_throws w = Except.ok v) := by
  subst hvw
  exact ⟨rfl, fun hv => ⟨none_throws_eq_ok v hv, none_throws_eq_ok v hv⟩⟩

/-- Witness for C6 at the present value `3`. -/
theorem none_throws_deterministic_app :
    none_throws (PyObject.int 3) = none_throws (PyObject.int 3) ∧
    (PyObject.int 3 ≠ absent →
      none_throws (PyObject.int 3) = Except.ok (PyObject.int 3) ∧
      none_throws (PyObject.int 3) = Except.ok (PyObject.int 3)) :=
  none_throws_deterministic (PyObject.int 3) (PyObject.int 3) rfl

/-- C7: `none_throws` is total: on every input it terminates, either
returning a value or raising an error. -/
theorem none_throws_total (v : PyObject) :
    (∃ r, none_throws v = Except.ok r) ∨ (∃ e, none_throws v = Except.error e) := by
  by_cases hv : v = PyObject.none
  · subst hv
    exact Or.inr ⟨_, none_throws_none_eq⟩
  · exact Or.inl ⟨v, none_throws_eq_ok v hv⟩

/-- C8: the two factory functions produce constant sentinel outputs with
no internal logic: for every name, `ParameterSpecification` returns the
empty list and `ListVariadic` returns the fixed `Any` marker. -/
theorem factories_constant (name : String) :
    ParameterSpecification name = PyObject.list [] ∧
    ListVariadic name = PyObject.anyMarker :=
  ⟨rfl, rfl⟩

/-- C9: the error raised on an absent input is the built-in
`AssertionError`, never a dedicated `UnexpectedAbsence` class: every
error `none_throws` raises has kind `assertionError`, which is a
different class from `unexpectedAbsence`. -/
theorem none_throws_error_is_assertion (v : PyObject) (e : PyError)
    (he : none_throws v = Except.error e) :
    e.kind = PyErrorKind.assertionError ∧
    e.kind ≠ PyErrorKind.unexpectedAbsence := by
  by_cases hv : v = PyObject.none
  · subst hv
    rw [none_throws_none_eq] at he
    injection he with h
    rw [← h]
    exact ⟨rfl, by decide⟩
  · rw [none_throws_eq_ok v hv] at he
    exact Except.noConfusion he

/-- Witness for C9 at the absent input and the concrete raised error. -/
theorem none_throws_error_is_assertion_app :
    ({ kind := PyErrorKind.assertionError, msg := "Unexpected `None`" } : PyError).kind
      = PyErrorKind.assertionError ∧
    ({ kind := PyErrorKind.assertionError, msg := "Unexpected `None`" } : PyError).kind
      ≠ PyErrorKind.unexpectedAbsence :=
  none_throws_error_is_assertion PyObject.none
    { kind := PyErrorKind.assertionError, msg := "Unexpected `None`" } rfl

/-- C10: the factory outputs are independent of the name argument: any
two names give equal results; the name is never inspected. -/
theorem factories_name_independent (n1 n2 : String) :
    ParameterSpecification n1 = ParameterSpecification n2 ∧
    ListVariadic n1 = ListVariadic n2 :=
  ⟨rfl, rfl⟩
